import Mathlib

/-
Verification development for thriftproxy.py, a transparent forwarding proxy
for Thrift RPC services.  The Python source is shallowly embedded: Python
values are a small inductive type, Python exceptions are an error type
threaded through `Except`, the process stdout is an explicit state value, and
the host object model (classes, instances, modules, attribute enumeration) is
modelled by explicit structures carrying what the relevant builtins return.
-/

/-- Python values appearing in proxied calls.  Only the features the proxy
touches are modelled: `repr` rendering and equality. -/
inductive PyVal where
  | str (s : String)
  | int (z : Int)
  | bool (b : Bool)
  | pyNone
  deriving DecidableEq, Repr

/-- Python exceptions relevant to the source: TypeError (bad join operand,
str + None concatenation), IndexError (tuple index out of range),
AttributeError (getattr failure), AssertionError (failed assert),
StopIteration (next on an exhausted iterator), ImportError, and `exn` for any
other exception (transport errors, service-level failures, body errors). -/
inductive PyErr where
  | typeError
  | indexError
  | attributeError
  | assertionError
  | stopIteration
  | importError
  | exn (tag : String)
  deriving DecidableEq, Repr

deriving instance DecidableEq for Except

/-- A single quote character, as a string. -/
def squote : String := "\x27"

/-- Model of the Python builtin `repr` on the embedded values.  For strings it
is faithful for ASCII text containing no quote or escape characters (the only
strings the claims exercise); ints, bools and None render as in CPython. -/
def pyRepr : PyVal → String
  | PyVal.str s => squote ++ s ++ squote
  | PyVal.int z => toString z
  | PyVal.bool b => if b then "True" else "False"
  | PyVal.pyNone => "None"

/-- The process standard output, with the Python 2 softspace flag that the
print statement maintains (a pending-space marker set by `print x,`). -/
structure Stdout where
  content : String
  softspace : Bool
  deriving DecidableEq, Repr

/-- Python 2 `print x,` (trailing comma): writes a pending space if softspace
is set, then the text, and leaves softspace set. -/
def printItem (s : String) (o : Stdout) : Stdout :=
  ⟨o.content ++ (if o.softspace then " " else "") ++ s, true⟩

/-- Python 2 bare `print`: writes a newline and clears softspace. -/
def printNewline (o : Stdout) : Stdout :=
  ⟨o.content ++ "\n", false⟩

/-- Python 2 `print x` (full statement): pending space if softspace, the text,
a newline; clears softspace. -/
def printLine (s : String) (o : Stdout) : Stdout :=
  ⟨o.content ++ (if o.softspace then " " else "") ++ s ++ "\n", false⟩

/-- The two process-wide tracing globals of thriftproxy.py (`tracing` and
`return_values`), fixed at startup from the command line and read by every
wrapper invocation. -/
structure TraceConfig where
  tracing : Bool
  return_values : Bool
  deriving DecidableEq, Repr

/-- One entry of a generated `*_args.thrift_spec` tuple: field id, type tag,
field name (the source reads index 2, the field name). -/
structure SpecField where
  fid : Nat
  ftype : Nat
  fname : String
  deriving DecidableEq, Repr

/-- A thrift_spec tuple: position 0 is None (reserved for the return marker),
and generated specs hold one entry per argument from position 1 on.  `none`
entries model the None fillers Python stores. -/
abbrev ThriftSpec : Type := List (Option SpecField)

/-- A bound method on the live backend client: its `__name__`, its `__doc__`
(None is modelled by `Option.none`), and its call behaviour on positional and
keyword arguments, either a result or a raised exception. -/
structure BoundMethod where
  name : String
  doc : Option String
  call : List PyVal → List (String × PyVal) → Except PyErr PyVal

/-- Source line 63: `kwargs_gen = ('='.join((key, repr(value),) for ...))`.
The parentheses make this an eager str.join over a generator of
(key, repr(value)) PAIRS, not over joined strings: CPython's str.join raises
TypeError at the first non-string item, so any non-empty kwargs dict raises,
while an empty dict yields the empty string. -/
def formatKwargs (kwargs : List (String × PyVal)) : Except PyErr String :=
  match kwargs with
  | [] => Except.ok ""
  | _ :: _ => Except.error PyErr.typeError

/-- Source line 62, consumed at line 64: for each positional index the label
is `args_thrift_spec[1 + x][2]` joined by = with `repr(varargs[x])`.
Indexing past the tuple end raises IndexError; subscripting a None entry
raises TypeError.  `pos` starts at 1: schema position 0 is skipped. -/
def formatVarargsAux (spec : ThriftSpec) (pos : Nat) : List PyVal → Except PyErr (List String)
  | [] => Except.ok []
  | v :: rest =>
    match spec[pos]? with
    | Option.none => Except.error PyErr.indexError
    | some Option.none => Except.error PyErr.typeError
    | some (some f) =>
      match formatVarargsAux spec (pos + 1) rest with
      | Except.error e => Except.error e
      | Except.ok tail => Except.ok ((f.fname ++ "=" ++ pyRepr v) :: tail)

/-- The varargs rendering generator of the wrapper, fully consumed. -/
def formatVarargs (spec : ThriftSpec) (varargs : List PyVal) : Except PyErr (List String) :=
  formatVarargsAux spec 1 varargs

/-- `itertools.chain` iterates a string character by character; this is how
the kwargs join result (a string) is consumed at line 64. -/
def stringChars (s : String) : List String :=
  s.data.map (fun c => String.mk [c])

/-- Source lines 67-70, the part of the wrapper after the tracing block:
invoke the bound method, then if tracing and return_values are both set print
the full `print ' -> %r' % result` statement, and return the result; a raised
exception propagates unmodified. -/
def afterCall (method : BoundMethod) (cfg : TraceConfig) (varargs : List PyVal)
    (kwargs : List (String × PyVal)) (out : Stdout) : Stdout × Except PyErr PyVal :=
  match method.call varargs kwargs with
  | Except.error e => (out, Except.error e)
  | Except.ok result =>
    (if (cfg.tracing && cfg.return_values) = true
       then printLine (" -> " ++ pyRepr result) out
       else out,
     Except.ok result)

/-- Source lines 58-70: the `wrapper` closure produced by proxy_wrapper.  The
first Python parameter (the proxy instance, bound as `client`) is unused by
the body and omitted here; the two globals are passed as `cfg`.  Line order is
kept: the kwargs join is evaluated eagerly at line 63, the varargs generator
is consumed by the join inside the print at line 64, and nothing is printed if
either raises. -/
def wrapperRun (method : BoundMethod) (args_thrift_spec : ThriftSpec) (cfg : TraceConfig)
    (varargs : List PyVal) (kwargs : List (String × PyVal)) (out : Stdout) :
    Stdout × Except PyErr PyVal :=
  if cfg.tracing = true then
    match formatKwargs kwargs with
    | Except.error e => (out, Except.error e)
    | Except.ok kwstr =>
      match formatVarargs args_thrift_spec varargs with
      | Except.error e => (out, Except.error e)
      | Except.ok items =>
        let header := method.name ++ "(" ++
          String.intercalate ", " (items ++ stringChars kwstr) ++ ")"
        let out1 := printItem header out
        let out2 := if cfg.return_values = true then out1 else printNewline out1
        afterCall method cfg varargs kwargs out2
  else
    afterCall method cfg varargs kwargs out

/-- A ForwardingDelegate: the wrapper function for one method together with
the docstring assigned at source line 71. -/
structure Delegate where
  doc : String
  run : TraceConfig → List PyVal → List (String × PyVal) → Stdout → Stdout × Except PyErr PyVal

/-- Source lines 53-72 (`proxy_wrapper`): build the wrapper and assign
`wrapper.__doc__ = 'proxy for ' + method.__name__ + method.__doc__`.  When the
bound method has no docstring (`__doc__` is None) the string concatenation
raises TypeError before the wrapper is returned. -/
def proxy_wrapper (method : BoundMethod) (args_thrift_spec : ThriftSpec) :
    Except PyErr Delegate :=
  match method.doc with
  | Option.none => Except.error PyErr.typeError
  | some d => Except.ok ⟨"proxy for " ++ method.name ++ d, wrapperRun method args_thrift_spec⟩

/-- One inbound call as dispatched to a delegate: the bound backend method and
its schema (fixed at proxy construction) plus this call's arguments. -/
structure CallSpec where
  method : BoundMethod
  argspec : ThriftSpec
  varargs : List PyVal
  kwargs : List (String × PyVal)

/-- A sequence of calls through forwarding delegates, threading stdout; the
server loop dispatches one call at a time. -/
def runCalls (cfg : TraceConfig) : List CallSpec → Stdout → Stdout × List (Except PyErr PyVal)
  | [], out => (out, [])
  | c :: rest, out =>
    let r := wrapperRun c.method c.argspec cfg c.varargs c.kwargs out
    let rest2 := runCalls cfg rest r.1
    (rest2.1, r.2 :: rest2.2)

/-- Model of `MAGIC_METHOD_RE = re.compile(R'^__.+?__$')` matching: the name
starts with two underscores, ends with two underscores, has at least one
character between them (so length at least 5), and the middle characters are
not newlines (re's dot does not match a newline). -/
def isMagicName (s : String) : Bool :=
  decide (5 ≤ s.data.length) &&
  decide (s.data.take 2 = ['_', '_']) &&
  decide (s.data.reverse.take 2 = ['_', '_']) &&
  ((s.data.drop 2).take (s.data.length - 4)).all (fun c => c != Char.ofNat 10)

/-- A Python class object as the proxy sees it: `__name__`, `__module__`,
whether it is a new-style class (a class carrying a `__class__` attribute;
thrift-generated classes are classic and carry none), its direct `__bases__`,
what the builtin `dir` returns for it (the host's attribute enumeration,
sorted and deduplicated by CPython), and the methods reachable by getattr
together with their bound behaviour. -/
inductive PyClass where
  | mk (name : String) (module : String) (newStyle : Bool) (bases : List PyClass)
      (dirNames : List String) (methods : List (String × BoundMethod))

/-- The `__name__` of a class. -/
def PyClass.name : PyClass → String
  | PyClass.mk n _ _ _ _ _ => n

/-- The `__module__` of a class. -/
def PyClass.module : PyClass → String
  | PyClass.mk _ m _ _ _ _ => m

/-- Whether the class is new-style, i.e. `hasattr(cls, '__class__')`. -/
def PyClass.newStyle : PyClass → Bool
  | PyClass.mk _ _ s _ _ _ => s

/-- The direct `__bases__` of a class. -/
def PyClass.bases : PyClass → List PyClass
  | PyClass.mk _ _ _ b _ _ => b

/-- What `dir` returns for the class. -/
def PyClass.dirNames : PyClass → List String
  | PyClass.mk _ _ _ _ d _ => d

/-- The methods reachable by getattr on the class or its instances. -/
def PyClass.methods : PyClass → List (String × BoundMethod)
  | PyClass.mk _ _ _ _ _ ms => ms

/-- A Python value passed to the introspection entry points: either a class
object or an instance of a class. -/
inductive PyValue where
  | cls (c : PyClass)
  | inst (c : PyClass)

/-- The class an attribute lookup on the value goes through: an instance
delegates to its class; on a class object, the class itself. -/
def PyValue.classOf : PyValue → PyClass
  | PyValue.cls c => c
  | PyValue.inst c => c

/-- `value.__module__` (instances delegate to their class). -/
def PyValue.moduleOf (v : PyValue) : String := (PyValue.classOf v).module

/-- `dir(value)` as the host reports it. -/
def PyValue.dirOf (v : PyValue) : List String := (PyValue.classOf v).dirNames

/-- The builtin metaclass `type`: what `getattr(C, '__class__')` yields for a
new-style class C.  It is itself new-style. -/
def typeMetaclass : PyClass := PyClass.mk "type" "__builtin__" true [] [] []

/-- Source line 32: `class_obj = getattr(client, '__class__', client)`.  An
instance has `__class__` (its class); a classic class has none, so the default
(the argument itself) is returned; a new-style class has `__class__ = type`. -/
def resolveClassObj : PyValue → PyClass
  | PyValue.inst c => c
  | PyValue.cls c => if c.newStyle then typeMetaclass else c

/-- Source lines 27-38 (`get_interface`): resolve the class object, assert it
has no `__class__` attribute (AssertionError for new-style classes), return
the original argument if the class is itself named Iface, otherwise return
the first direct base named Iface (`next` on an empty ifilter raises
StopIteration). -/
def get_interface (client : PyValue) : Except PyErr PyValue :=
  let class_obj := resolveClassObj client
  if class_obj.newStyle = true then Except.error PyErr.assertionError
  else if class_obj.name = "Iface" then Except.ok client
  else
    match class_obj.bases.find? (fun b => b.name == "Iface") with
    | some b => Except.ok (PyValue.cls b)
    | Option.none => Except.error PyErr.stopIteration

/-- A generated `<method>_args` object in the service module; getattr of its
`thrift_spec` attribute fails when the attribute is absent. -/
structure ArgsObj where
  thrift_spec : Option ThriftSpec

/-- A loaded Python module: its name and the `*_args` attributes the proxy
reads from it (other module attributes are never touched on these paths). -/
structure PyModule where
  name : String
  attrs : List (String × ArgsObj)

/-- `__import__(name, ...)`: look the module up in the interpreter's module
environment; an unknown name raises ImportError. -/
def importModule (env : List PyModule) (name : String) : Except PyErr PyModule :=
  match env.find? (fun m => m.name == name) with
  | some m => Except.ok m
  | Option.none => Except.error PyErr.importError

/-- Source lines 49-51: import the interface's defining module and read
`getattr(base_module, x + '_args').thrift_spec`; a missing `x_args` object or
a missing thrift_spec attribute raises AttributeError. -/
def lookupSchema (env : List PyModule) (base_module_name : String) (x : String) :
    Except PyErr ThriftSpec :=
  match importModule env base_module_name with
  | Except.error e => Except.error e
  | Except.ok base_module =>
    match base_module.attrs.find? (fun p => p.1 == x ++ "_args") with
    | Option.none => Except.error PyErr.attributeError
    | some p =>
      match p.2.thrift_spec with
      | Option.none => Except.error PyErr.attributeError
      | some sp => Except.ok sp

/-- Source lines 47-48: the names dir yields on the interface, with the
reserved magic names filtered out. -/
def nonMagicNames (interface : PyValue) : List String :=
  (PyValue.dirOf interface).filter (fun x => !(isMagicName x))

/-- Exception-aware traversal: the order in which a for-loop consumes a
generator, stopping at the first raised exception. -/
def mapE {A B : Type} (f : A → Except PyErr B) : List A → Except PyErr (List B)
  | [] => Except.ok []
  | x :: xs =>
    match f x with
    | Except.error e => Except.error e
    | Except.ok y =>
      match mapE f xs with
      | Except.error e => Except.error e
      | Except.ok ys => Except.ok (y :: ys)

/-- Source lines 40-51 (`get_service_methods`), fully consumed: pair every
non-magic name from dir on the resolved interface with its argument schema.
(The unused local `client_class` at line 46 is omitted.) -/
def get_service_methods (env : List PyModule) (client : PyValue) :
    Except PyErr (List (String × ThriftSpec)) :=
  match get_interface client with
  | Except.error e => Except.error e
  | Except.ok interface =>
    mapE (fun x =>
        match lookupSchema env (PyValue.moduleOf interface) x with
        | Except.error e => Except.error e
        | Except.ok sp => Except.ok (x, sp))
      (nonMagicNames interface)

/-- `getattr(client, method_name)` at source line 80: the bound method. -/
def getattrMethod (client : PyValue) (name : String) : Except PyErr BoundMethod :=
  match (PyValue.classOf client).methods.find? (fun p => p.1 == name) with
  | some p => Except.ok p.2
  | Option.none => Except.error PyErr.attributeError

/-- One iteration of make_proxy_methods for a discovered name: look up the
schema (lines 49-51), fetch the bound method (line 80), wrap it (line 81) and
yield the (name, method) pair (line 82). -/
def build_one (env : List PyModule) (client : PyValue) (base_module_name : String)
    (x : String) : Except PyErr (String × Delegate) :=
  match lookupSchema env base_module_name x with
  | Except.error e => Except.error e
  | Except.ok sp =>
    match getattrMethod client x with
    | Except.error e => Except.error e
    | Except.ok m =>
      match proxy_wrapper m sp with
      | Except.error e => Except.error e
      | Except.ok d => Except.ok (x, d)

/-- Source lines 74-82 (`make_proxy_methods`), fully consumed.  The source
interleaves get_service_methods with the getattr and wrapping steps, one
method at a time; the loop body is build_one. -/
def make_proxy_methods (env : List PyModule) (client : PyValue) :
    Except PyErr (List (String × Delegate)) :=
  match get_interface client with
  | Except.error e => Except.error e
  | Except.ok interface =>
    mapE (build_one env client (PyValue.moduleOf interface)) (nonMagicNames interface)

/-- In Python 2 a StopIteration escaping a generator body silently ends the
iteration, so a consumer such as dict() sees an empty sequence instead of the
exception.  Every other exception propagates. -/
def consumeGen {A : Type} (r : Except PyErr (List A)) : Except PyErr (List A) :=
  match r with
  | Except.error PyErr.stopIteration => Except.ok []
  | other => other

/-- The dynamically created proxy type of source line 89: its type name and
the method dict passed to the type builtin. -/
structure ProxyType where
  typeName : String
  methods : List (String × Delegate)

/-- Source lines 84-89 (`make_proxy_type`): build the method dict by consuming
the make_proxy_methods generator (dict() is the consumer, hence the
StopIteration swallowing) and mint the new type. -/
def make_proxy_type (env : List PyModule) (client : PyValue) : Except PyErr ProxyType :=
  match consumeGen (make_proxy_methods env client) with
  | Except.error e => Except.error e
  | Except.ok md => Except.ok ⟨PyValue.moduleOf client ++ ".Proxy", md⟩

/-- An instance of the generated proxy type. -/
structure ProxyObject where
  ptype : ProxyType

/-- Source lines 91-96 (`make_proxy`): instantiate the proxy type. -/
def make_proxy (env : List PyModule) (client : PyValue) : Except PyErr ProxyObject :=
  match make_proxy_type env client with
  | Except.error e => Except.error e
  | Except.ok t => Except.ok ⟨t⟩

/-- Whether an Except value is a success. -/
def isOkE {A : Type} : Except PyErr A → Bool
  | Except.ok _ => true
  | Except.error _ => false

/-- The method names the produced proxy object exposes (its type dict keys). -/
def proxyMethodNames (env : List PyModule) (client : PyValue) : Except PyErr (List String) :=
  match make_proxy env client with
  | Except.error e => Except.error e
  | Except.ok p => Except.ok (p.ptype.methods.map Prod.fst)

/-- The observable steps of the make_client scope (source lines 98-108), in
the order they occur. -/
inductive CMEvent where
  | socketCreate
  | wrapTransport
  | protocolCreate
  | clientCreate
  | openTransport
  | body
  | closeTransport
  deriving DecidableEq, Repr

/-- Which steps of a make_client execution fail: the protocol constructor,
the client constructor, the explicit transport.open call, or the code run
inside the with-scope (each failure raises into the try block). -/
structure MakeClientEnv where
  protocolFails : Bool
  clientFails : Bool
  openFails : Bool
  bodyFails : Bool

/-- Source lines 98-108 (`make_client`): the socket and its buffered or
framed wrapper are constructed before the try block; the protocol, the client,
the transport.open call and the yielded scope body run inside `try`, and the
`finally` closes the transport on every exit.  The result records the event
sequence and whether an exception leaves the scope. -/
def make_client (env : MakeClientEnv) : List CMEvent × Except PyErr Unit :=
  let tryPart : List CMEvent × Except PyErr Unit :=
    if env.protocolFails then ([], Except.error (PyErr.exn "protocol")) else
    if env.clientFails then ([CMEvent.protocolCreate], Except.error (PyErr.exn "client")) else
    if env.openFails then
      ([CMEvent.protocolCreate, CMEvent.clientCreate], Except.error (PyErr.exn "open"))
    else if env.bodyFails then
      ([CMEvent.protocolCreate, CMEvent.clientCreate, CMEvent.openTransport],
       Except.error (PyErr.exn "body"))
    else
      ([CMEvent.protocolCreate, CMEvent.clientCreate, CMEvent.openTransport, CMEvent.body],
       Except.ok ())
  ([CMEvent.socketCreate, CMEvent.wrapTransport] ++ tryPart.1 ++ [CMEvent.closeTransport],
   tryPart.2)

/-- Python's str.endswith on the embedded byte strings. -/
def pyEndsWith (s suffix : String) : Bool :=
  List.isSuffixOf suffix.data s.data

/-- Python's `s[:-n]` slice on the embedded byte strings. -/
def pySliceDropRight (s : String) (n : Nat) : String :=
  String.mk (s.data.take (s.data.length - n))

/-- Source line 126: strip a trailing '.Client' (7 characters) to obtain the
defining module's name, otherwise use the given name unchanged. -/
def baseModuleNameOf (client_type : String) : String :=
  if pyEndsWith client_type ".Client" = true then pySliceDropRight client_type 7
  else client_type

/-- A service's generated module as main loads it: its name and its Client
and Processor attributes when present. -/
structure ServiceModule where
  name : String
  clientAttr : Option PyValue
  processorAttr : Option PyValue

/-- Source lines 126-129: resolve the module name from the service type name,
load that module, and read its Client and Processor attributes. -/
def resolveService (mods : List ServiceModule) (client_type : String) :
    Except PyErr (PyValue × PyValue) :=
  match mods.find? (fun m => m.name == baseModuleNameOf client_type) with
  | Option.none => Except.error PyErr.importError
  | some m =>
    match m.clientAttr with
    | Option.none => Except.error PyErr.attributeError
    | some c =>
      match m.processorAttr with
      | Option.none => Except.error PyErr.attributeError
      | some p => Except.ok (c, p)

/-
Concrete fixtures: a minimal Echo service, used by the witnesses.  They model
the thrift-generated module Echo with interface method
echo(message: string) -> string.
-/

/-- The thrift_spec entry for the echo message field (field id 1, TType.STRING
is tag 11, field name message). -/
def echoField : SpecField := ⟨1, 11, "message"⟩

/-- thrift_spec of Echo.echo_args: position 0 is the reserved None. -/
def echoTS : ThriftSpec := [Option.none, some echoField]

/-- The behaviour of the live backend client's bound echo method: one
positional argument, or the same argument passed by keyword, echoed back;
anything else is a TypeError from Python's argument binding. -/
def echoCall : List PyVal → List (String × PyVal) → Except PyErr PyVal
  | [v], [] => Except.ok v
  | [], [(k, v)] => if k == "message" then Except.ok v else Except.error PyErr.typeError
  | _, _ => Except.error PyErr.typeError

/-- Docstring of the generated echo method. -/
def echoDoc : String := "Echo the message back."

/-- The bound echo method with its docstring. -/
def echoBound : BoundMethod := ⟨"echo", some echoDoc, echoCall⟩

/-- A bound echo method whose backend call always fails. -/
def echoFailing : BoundMethod :=
  ⟨"echo", some echoDoc, fun _ _ => Except.error (PyErr.exn "boom")⟩

/-- A bound echo method with no docstring. -/
def nodocBound : BoundMethod := ⟨"echo", Option.none, echoCall⟩

/-- The classic interface class Echo.Iface: dir yields the two magic names
every classic class carries plus the one service method. -/
def echoIfaceClass : PyClass :=
  PyClass.mk "Iface" "Echo" false [] ["__doc__", "__module__", "echo"] [("echo", echoBound)]

/-- The classic client class Echo.Client, deriving from Iface. -/
def echoClientClass : PyClass :=
  PyClass.mk "Client" "Echo" false [echoIfaceClass]
    ["__doc__", "__init__", "__module__", "echo", "recv_echo", "send_echo"]
    [("echo", echoBound)]

/-- A connected Echo client instance. -/
def echoClientVal : PyValue := PyValue.inst echoClientClass

/-- A client class identical to Echo.Client except that its echo method has no
docstring. -/
def nodocClientClass : PyClass :=
  PyClass.mk "Client" "Echo" false [echoIfaceClass]
    ["__doc__", "__init__", "__module__", "echo", "recv_echo", "send_echo"]
    [("echo", nodocBound)]

/-- An instance of the docstring-less client class. -/
def nodocClientVal : PyValue := PyValue.inst nodocClientClass

/-- A module environment where the Echo module carries echo_args with its
thrift_spec. -/
def echoEnv : List PyModule := [⟨"Echo", [("echo_args", ⟨some echoTS⟩)]⟩]

/-- A module environment where the Echo module lacks the echo_args object. -/
def echoEnvNoArgs : List PyModule := [⟨"Echo", []⟩]

/-- A new-style class, as produced by a Python 3 style definition. -/
def newStyleClient : PyClass := PyClass.mk "Client" "Echo" true [] [] []

/-- A classic class that is itself named Iface. -/
def classicIface : PyClass := PyClass.mk "Iface" "Echo" false [] [] []

/-- The Client attribute of the loaded Echo service module. -/
def echoClientAttr : PyValue := PyValue.cls echoClientClass

/-- The Processor attribute of the loaded Echo service module. -/
def echoProcessorAttr : PyValue := PyValue.cls (PyClass.mk "Processor" "Echo" false [] [] [])

/-- A module table holding the generated Echo module with Client and
Processor. -/
def echoServiceModule : ServiceModule := ⟨"Echo", some echoClientAttr, some echoProcessorAttr⟩

/-- The interpreter module table for the Echo scenario. -/
def echoServiceMods : List ServiceModule := [echoServiceModule]

/-- Three identical echo calls, as in the no-trace scenario. -/
def threeEchoCalls : List CallSpec :=
  [⟨echoBound, echoTS, [PyVal.str "hi"], []⟩,
   ⟨echoBound, echoTS, [PyVal.str "hi"], []⟩,
   ⟨echoBound, echoTS, [PyVal.str "hi"], []⟩]

/-
Helper lemmas (shared machinery; not tied to any single claim).
-/

/-- An exception out of mapE arises from some element of the list. -/
theorem mapE_error_mem {A B : Type} (f : A → Except PyErr B) (l : List A) (e : PyErr)
    (h : mapE f l = Except.error e) : ∃ x ∈ l, f x = Except.error e := by
  induction l with
  | nil => simp [mapE] at h
  | cons x xs ih =>
    unfold mapE at h
    cases hf : f x with
    | error e0 =>
      rw [hf] at h
      exact ⟨x, List.mem_cons_self x xs, by cases h; exact hf⟩
    | ok y =>
      rw [hf] at h
      cases hm : mapE f xs with
      | error e1 =>
        rw [hm] at h
        cases h
        obtain ⟨z, hz, hfz⟩ := ih hm
        exact ⟨z, List.mem_cons_of_mem _ hz, hfz⟩
      | ok ys => rw [hm] at h; cases h

/-- If some element of the list raises, mapE raises. -/
theorem mapE_mem_error {A B : Type} (f : A → Except PyErr B) (l : List A) (x : A) (e : PyErr)
    (hx : x ∈ l) (hfx : f x = Except.error e) : ∃ e2, mapE f l = Except.error e2 := by
  induction l with
  | nil => cases hx
  | cons y ys ih =>
    unfold mapE
    cases hf : f y with
    | error e0 => exact ⟨e0, rfl⟩
    | ok b =>
      cases List.mem_cons.mp hx with
      | inl hxy => rw [hxy] at hfx; rw [hfx] at hf; cases hf
      | inr hmem =>
        obtain ⟨e2, he2⟩ := ih hmem
        rw [he2]
        exact ⟨e2, rfl⟩

/-- When mapE succeeds with a key-tagged builder, the produced keys are
exactly the input list. -/
theorem mapE_ok_fst {A B : Type} (f : A → Except PyErr (A × B)) (l : List A) (ys : List (A × B))
    (hf : ∀ a p, f a = Except.ok p → p.1 = a)
    (h : mapE f l = Except.ok ys) : ys.map Prod.fst = l := by
  induction l generalizing ys with
  | nil => cases h; rfl
  | cons x xs ih =>
    unfold mapE at h
    cases hfx : f x with
    | error e => rw [hfx] at h; cases h
    | ok y =>
      rw [hfx] at h
      cases hm : mapE f xs with
      | error e => rw [hm] at h; cases h
      | ok zs =>
        rw [hm] at h
        cases h
        simp [List.map_cons, hf x y hfx, ih zs hm]

/-- importModule fails only with ImportError. -/
theorem importModule_error (env : List PyModule) (mn : String) (e : PyErr)
    (h : importModule env mn = Except.error e) : e = PyErr.importError := by
  unfold importModule at h
  cases hf : env.find? (fun m => m.name == mn) with
  | none => rw [hf] at h; cases h; rfl
  | some m => rw [hf] at h; cases h

/-- lookupSchema never raises StopIteration. -/
theorem lookupSchema_ne_stop (env : List PyModule) (mn x : String) (e : PyErr)
    (h : lookupSchema env mn x = Except.error e) : e ≠ PyErr.stopIteration := by
  unfold lookupSchema at h
  cases him : importModule env mn with
  | error e0 =>
    simp only [him] at h
    rw [← Except.error.inj h, importModule_error env mn e0 him]
    decide
  | ok bm =>
    simp only [him] at h
    cases hf : bm.attrs.find? (fun p => p.1 == x ++ "_args") with
    | none =>
      simp only [hf] at h
      rw [← Except.error.inj h]
      decide
    | some p =>
      simp only [hf] at h
      cases hts : p.2.thrift_spec with
      | none =>
        simp only [hts] at h
        rw [← Except.error.inj h]
        decide
      | some sp => simp only [hts] at h; cases h

/-- getattrMethod fails only with AttributeError. -/
theorem getattrMethod_error (client : PyValue) (x : String) (e : PyErr)
    (h : getattrMethod client x = Except.error e) : e = PyErr.attributeError := by
  unfold getattrMethod at h
  cases hf : (PyValue.classOf client).methods.find? (fun p => p.1 == x) with
  | none =>
    simp only [hf] at h
    exact (Except.error.inj h).symm ▸ rfl
  | some p => simp only [hf] at h; cases h

/-- proxy_wrapper fails only with TypeError (docstring concatenation). -/
theorem proxy_wrapper_error (m : BoundMethod) (sp : ThriftSpec) (e : PyErr)
    (h : proxy_wrapper m sp = Except.error e) : e = PyErr.typeError := by
  unfold proxy_wrapper at h
  cases hd : m.doc with
  | none =>
    simp only [hd] at h
    exact (Except.error.inj h).symm ▸ rfl
  | some d => simp only [hd] at h; cases h

/-- build_one never raises StopIteration. -/
theorem build_one_ne_stop (env : List PyModule) (client : PyValue) (mn x : String) (e : PyErr)
    (h : build_one env client mn x = Except.error e) : e ≠ PyErr.stopIteration := by
  unfold build_one at h
  cases hls : lookupSchema env mn x with
  | error e0 =>
    simp only [hls] at h
    rw [← Except.error.inj h]
    exact lookupSchema_ne_stop env mn x e0 hls
  | ok sp =>
    simp only [hls] at h
    cases hgm : getattrMethod client x with
    | error e1 =>
      simp only [hgm] at h
      rw [← Except.error.inj h, getattrMethod_error client x e1 hgm]
      decide
    | ok m =>
      simp only [hgm] at h
      cases hpw : proxy_wrapper m sp with
      | error e2 =>
        simp only [hpw] at h
        rw [← Except.error.inj h, proxy_wrapper_error m sp e2 hpw]
        decide
      | ok dl => simp only [hpw] at h; cases h

/-- If building any discovered method fails, make_proxy fails: the raised
exception is never StopIteration, so the generator consumers propagate it. -/
theorem make_proxy_fails_of_build_one_error (env : List PyModule) (client ifaceV : PyValue)
    (x : String) (e : PyErr)
    (h1 : get_interface client = Except.ok ifaceV)
    (hx : x ∈ nonMagicNames ifaceV)
    (hb : build_one env client (PyValue.moduleOf ifaceV) x = Except.error e) :
    isOkE (make_proxy env client) = false := by
  have hmm : make_proxy_methods env client =
      mapE (build_one env client (PyValue.moduleOf ifaceV)) (nonMagicNames ifaceV) := by
    unfold make_proxy_methods
    rw [h1]
  obtain ⟨e2, he2⟩ :=
    mapE_mem_error (build_one env client (PyValue.moduleOf ifaceV)) (nonMagicNames ifaceV) x e hx hb
  have hstop : e2 ≠ PyErr.stopIteration := by
    obtain ⟨z, _, hfz⟩ :=
      mapE_error_mem (build_one env client (PyValue.moduleOf ifaceV)) (nonMagicNames ifaceV) e2 he2
    exact build_one_ne_stop env client (PyValue.moduleOf ifaceV) z e2 hfz
  unfold make_proxy make_proxy_type
  rw [hmm, he2]
  cases e2 with
  | stopIteration => exact absurd rfl hstop
  | typeError => rfl
  | indexError => rfl
  | attributeError => rfl
  | assertionError => rfl
  | importError => rfl
  | exn tag => rfl

/-- On a schema with entries at positions pre.length, pre.length+1, ... the
varargs renderer yields exactly the name=repr pairs, zipping fields with
values. -/
theorem formatVarargsAux_contiguous (varargs : List PyVal) :
    ∀ (fields : List SpecField) (pre : List (Option SpecField)),
      varargs.length ≤ fields.length →
      formatVarargsAux (pre ++ fields.map some) pre.length varargs =
        Except.ok (List.zipWith (fun f v => f.fname ++ "=" ++ pyRepr v) fields varargs) := by
  induction varargs with
  | nil =>
    intro fields pre h
    simp [formatVarargsAux, List.zipWith_nil_right]
  | cons v vs ih =>
    intro fields pre h
    cases fields with
    | nil => simp at h
    | cons f fs =>
      have hget : (pre ++ (some f :: fs.map some))[pre.length]? = some (some f) := by
        rw [List.getElem?_append_right (Nat.le_refl pre.length)]
        simp
      have ih2 := ih fs (pre ++ [some f]) (Nat.le_of_succ_le_succ h)
      rw [List.append_assoc] at ih2
      simp only [List.singleton_append, List.length_append, List.length_cons,
        List.length_nil, Nat.zero_add, List.map_cons] at ih2
      unfold formatVarargsAux
      simp only [List.map_cons, hget, ih2, List.zipWith_cons_cons]

/-- With tracing disabled the wrapper is the bare backend call: stdout is
untouched and the result or failure passes through unmodified. -/
theorem wrapperRun_notrace (m : BoundMethod) (sp : ThriftSpec) (cfg : TraceConfig)
    (varargs : List PyVal) (kwargs : List (String × PyVal)) (out : Stdout)
    (h : cfg.tracing = false) :
    wrapperRun m sp cfg varargs kwargs out = (out, m.call varargs kwargs) := by
  unfold wrapperRun afterCall
  rw [h]
  simp only [Bool.false_eq_true, if_false, Bool.false_and]
  cases hc : m.call varargs kwargs with
  | error e => rfl
  | ok r => simp

/-- A list is a prefix of itself followed by anything (boolean form). -/
theorem isPrefixOf_self_append (l r : List Char) : l.isPrefixOf (l ++ r) = true := by
  induction l with
  | nil => simp [List.isPrefixOf]
  | cons a as ih => simp [List.isPrefixOf, ih]

/-- str.endswith holds on an appended suffix. -/
theorem pyEndsWith_append (base sfx : String) : pyEndsWith (base ++ sfx) sfx = true := by
  unfold pyEndsWith
  have hd : (base ++ sfx).data = base.data ++ sfx.data := by
    cases base
    cases sfx
    rfl
  rw [hd]
  unfold List.isSuffixOf
  rw [List.reverse_append]
  exact isPrefixOf_self_append _ _

/-- Slicing off exactly the length of an appended suffix recovers the base. -/
theorem pySliceDropRight_append (base sfx : String) :
    pySliceDropRight (base ++ sfx) sfx.data.length = base := by
  unfold pySliceDropRight
  have hd : (base ++ sfx).data = base.data ++ sfx.data := by
    cases base
    cases sfx
    rfl
  rw [hd, List.length_append, Nat.add_sub_cancel, List.take_left]

/-
Claim theorems.
-/

/-- C1: the claim states that for every call through a ForwardingDelegate the
bound backend method is invoked with exactly the arguments received and
tracing never changes what the caller receives.  The code violates this: with
tracing enabled, a call carrying any keyword argument raises TypeError from
the misplaced str.join at source line 63 before the backend is invoked,
whereas the same call with tracing disabled reaches the backend and succeeds.
This theorem evaluates the wrapper at that failing input. -/
theorem c1_tracing_alters_kwargs_call :
    wrapperRun echoBound echoTS ⟨true, false⟩ [] [("message", PyVal.str "hi")] ⟨"", false⟩
      = (⟨"", false⟩, Except.error PyErr.typeError) ∧
    wrapperRun echoBound echoTS ⟨false, false⟩ [] [("message", PyVal.str "hi")] ⟨"", false⟩
      = (⟨"", false⟩, Except.ok (PyVal.str "hi")) ∧
    echoBound.call [] [("message", PyVal.str "hi")] = Except.ok (PyVal.str "hi") := by
  refine ⟨by decide, by decide, by decide⟩

/-- C2: for every service interface, the proxy object produced by make_proxy
exposes exactly the interface's non-magic method names, named identically,
no extra and none missing. -/
theorem c2_proxy_method_names (env : List PyModule) (client ifaceV : PyValue)
    (h1 : get_interface client = Except.ok ifaceV)
    (h2 : isOkE (make_proxy env client) = true) :
    proxyMethodNames env client = Except.ok (nonMagicNames ifaceV) := by
  have hmm : make_proxy_methods env client =
      mapE (build_one env client (PyValue.moduleOf ifaceV)) (nonMagicNames ifaceV) := by
    unfold make_proxy_methods
    rw [h1]
  cases hE : mapE (build_one env client (PyValue.moduleOf ifaceV)) (nonMagicNames ifaceV) with
  | error e =>
    exfalso
    have hstop : e ≠ PyErr.stopIteration := by
      obtain ⟨z, _, hfz⟩ := mapE_error_mem _ _ _ hE
      exact build_one_ne_stop env client (PyValue.moduleOf ifaceV) z e hfz
    unfold make_proxy make_proxy_type at h2
    rw [hmm, hE] at h2
    cases e with
    | stopIteration => exact hstop rfl
    | typeError => simp [consumeGen, isOkE] at h2
    | indexError => simp [consumeGen, isOkE] at h2
    | attributeError => simp [consumeGen, isOkE] at h2
    | assertionError => simp [consumeGen, isOkE] at h2
    | importError => simp [consumeGen, isOkE] at h2
    | exn tag => simp [consumeGen, isOkE] at h2
  | ok md =>
    have hnames : md.map Prod.fst = nonMagicNames ifaceV := by
      apply mapE_ok_fst _ _ _ _ hE
      intro a p hp
      unfold build_one at hp
      cases hls : lookupSchema env (PyValue.moduleOf ifaceV) a with
      | error e0 => simp only [hls] at hp; cases hp
      | ok sp =>
        simp only [hls] at hp
        cases hgm : getattrMethod client a with
        | error e1 => simp only [hgm] at hp; cases hp
        | ok mth =>
          simp only [hgm] at hp
          cases hpw : proxy_wrapper mth sp with
          | error e2 => simp only [hpw] at hp; cases hp
          | ok dl =>
            simp only [hpw] at hp
            cases hp
            rfl
    unfold proxyMethodNames make_proxy make_proxy_type
    rw [hmm, hE]
    simp [consumeGen, hnames]

/-- C2 witness: the Echo proxy exposes exactly the method echo. -/
theorem c2_witness : proxyMethodNames echoEnv echoClientVal = Except.ok ["echo"] :=
  (c2_proxy_method_names echoEnv echoClientVal (PyValue.cls echoIfaceClass) rfl rfl).trans
    (by decide)

/-- C3: for every traced call with tracing on and return-value tracing off
(and positional arguments covered by the schema), exactly one trace line
methodName(name1=v1, ...) is emitted, where positional argument i is labeled
with the field name at schema position i+1 (position 0 skipped) and each
value is rendered with its repr; the backend result then passes through. -/
theorem c3_trace_line_format (cfg : TraceConfig) (m : BoundMethod) (fields : List SpecField)
    (varargs : List PyVal) (out : Stdout)
    (ht : cfg.tracing = true) (hr : cfg.return_values = false)
    (hlen : varargs.length ≤ fields.length) :
    wrapperRun m (Option.none :: fields.map some) cfg varargs [] out =
      (printNewline (printItem (m.name ++ "(" ++
          String.intercalate ", "
            (List.zipWith (fun f v => f.fname ++ "=" ++ pyRepr v) fields varargs) ++ ")") out),
       m.call varargs []) := by
  have hv : formatVarargs (Option.none :: fields.map some) varargs =
      Except.ok (List.zipWith (fun f v => f.fname ++ "=" ++ pyRepr v) fields varargs) := by
    have h := formatVarargsAux_contiguous varargs fields [Option.none] hlen
    simpa [formatVarargs] using h
  obtain ⟨tr, rv⟩ := cfg
  have ht2 : tr = true := ht
  have hr2 : rv = false := hr
  subst ht2
  subst hr2
  cases hc : m.call varargs [] with
  | error e => simp [wrapperRun, afterCall, hv, hc, stringChars, formatKwargs]
  | ok r => simp [wrapperRun, afterCall, hv, hc, stringChars, formatKwargs]

/-- C3 witness: echo called with the string hi yields the expected single
trace line and returns the backend result. -/
theorem c3_witness :
    wrapperRun echoBound (Option.none :: [echoField].map some) ⟨true, false⟩
        [PyVal.str "hi"] [] ⟨"", false⟩ =
      (⟨"echo(message=" ++ squote ++ "hi" ++ squote ++ ")" ++ "\n", false⟩,
       Except.ok (PyVal.str "hi")) :=
  (c3_trace_line_format ⟨true, false⟩ echoBound [echoField] [PyVal.str "hi"] ⟨"", false⟩
      rfl rfl (by decide)).trans (by decide)

/-- C4: if a discovered non-magic method has no sibling x_args object in the
defining module, or that object lacks its thrift_spec attribute, proxy
construction fails and no proxy object is produced. -/
theorem c4_missing_schema_aborts (env : List PyModule) (client ifaceV : PyValue)
    (x : String) (bm : PyModule)
    (h1 : get_interface client = Except.ok ifaceV)
    (hx : x ∈ nonMagicNames ifaceV)
    (himp : importModule env (PyValue.moduleOf ifaceV) = Except.ok bm)
    (hmiss : bm.attrs.find? (fun p => p.1 == x ++ "_args") = Option.none ∨
             ∃ pr, bm.attrs.find? (fun p => p.1 == x ++ "_args") = some pr ∧
                   pr.2.thrift_spec = Option.none) :
    isOkE (make_proxy env client) = false := by
  have hls : lookupSchema env (PyValue.moduleOf ifaceV) x = Except.error PyErr.attributeError := by
    unfold lookupSchema
    cases hmiss with
    | inl hnone => simp [himp, hnone]
    | inr hsome =>
      obtain ⟨pr, hfind, hts⟩ := hsome
      simp [himp, hfind, hts]
  have hb : build_one env client (PyValue.moduleOf ifaceV) x =
      Except.error PyErr.attributeError := by
    unfold build_one
    simp [hls]
  exact make_proxy_fails_of_build_one_error env client ifaceV x PyErr.attributeError h1 hx hb

/-- C4 witness: with the echo_args object missing from the Echo module,
make_proxy fails. -/
theorem c4_witness : isOkE (make_proxy echoEnvNoArgs echoClientVal) = false :=
  c4_missing_schema_aborts echoEnvNoArgs echoClientVal (PyValue.cls echoIfaceClass) "echo"
    ⟨"Echo", []⟩ rfl (by decide) rfl (Or.inl rfl)

/-- C5: on every exit path of the make_client scope (normal completion,
protocol or client construction error, transport open failure, or an error
later inside the scope) the transport close operation runs exactly once, and
it is the last step before control leaves the scope. -/
theorem c5_transport_closed_once (env : MakeClientEnv) :
    (make_client env).1.count CMEvent.closeTransport = 1 ∧
    (make_client env).1.getLast? = some CMEvent.closeTransport := by
  obtain ⟨p, c, o, b⟩ := env
  cases p <;> cases c <;> cases o <;> cases b <;> decide

/-- C6: for a traced call whose trace formatting succeeds, the pre-call line
is written before the backend runs, so it is present even when the backend
call raises; the failure itself propagates unmodified. -/
theorem c6_pre_call_line_on_failure (cfg : TraceConfig) (m : BoundMethod) (tspec : ThriftSpec)
    (varargs : List PyVal) (kwargs : List (String × PyVal)) (out : Stdout)
    (ks : String) (items : List String) (e : PyErr)
    (ht : cfg.tracing = true)
    (hk : formatKwargs kwargs = Except.ok ks)
    (hv : formatVarargs tspec varargs = Except.ok items)
    (hc : m.call varargs kwargs = Except.error e) :
    wrapperRun m tspec cfg varargs kwargs out =
      ((if cfg.return_values = true
          then printItem (m.name ++ "(" ++
            String.intercalate ", " (items ++ stringChars ks) ++ ")") out
          else printNewline (printItem (m.name ++ "(" ++
            String.intercalate ", " (items ++ stringChars ks) ++ ")") out)),
       Except.error e) := by
  obtain ⟨tr, rv⟩ := cfg
  have ht2 : tr = true := ht
  subst ht2
  cases rv with
  | true => simp [wrapperRun, afterCall, hk, hv, hc]
  | false => simp [wrapperRun, afterCall, hk, hv, hc]

/-- C6 witness: a failing backend still leaves the pre-call trace line on
stdout and the exception propagates. -/
theorem c6_witness :
    wrapperRun echoFailing echoTS ⟨true, false⟩ [PyVal.str "hi"] [] ⟨"", false⟩ =
      (⟨"echo(message=" ++ squote ++ "hi" ++ squote ++ ")" ++ "\n", false⟩,
       Except.error (PyErr.exn "boom")) :=
  (c6_pre_call_line_on_failure ⟨true, false⟩ echoFailing echoTS [PyVal.str "hi"] [] ⟨"", false⟩
      "" [("message=" ++ squote ++ "hi" ++ squote)] (PyErr.exn "boom")
      rfl rfl (by decide) rfl).trans (by decide)

/-- C7: with tracing disabled, any number of calls through the delegates
emits nothing at all, and each call returns exactly the backend result. -/
theorem c7_no_trace_silent (cfg : TraceConfig) (calls : List CallSpec) (out : Stdout)
    (h : cfg.tracing = false) :
    runCalls cfg calls out = (out, calls.map (fun c => c.method.call c.varargs c.kwargs)) := by
  induction calls generalizing out with
  | nil => rfl
  | cons c rest ih =>
    simp only [runCalls, wrapperRun_notrace c.method c.argspec cfg c.varargs c.kwargs out h,
      ih, List.map_cons]

/-- C7 witness: three echo calls with tracing off leave stdout empty and all
return the echoed value. -/
theorem c7_witness :
    runCalls ⟨false, true⟩ threeEchoCalls ⟨"", false⟩ =
      (⟨"", false⟩,
       [Except.ok (PyVal.str "hi"), Except.ok (PyVal.str "hi"), Except.ok (PyVal.str "hi")]) :=
  (c7_no_trace_silent ⟨false, true⟩ threeEchoCalls ⟨"", false⟩ rfl).trans (by decide)

/-- C8: a service type name ending in .Client has exactly that 7-character
suffix stripped to obtain the defining module's name, any other name is used
as given, and both the Client and Processor types are loaded from the module
of that name. -/
theorem c8_client_suffix_strip (mods : List ServiceModule) (s : String) :
    (∀ base : String, s = base ++ ".Client" → baseModuleNameOf s = base) ∧
    (pyEndsWith s ".Client" = false → baseModuleNameOf s = s) ∧
    (∀ m cv pv, mods.find? (fun md => md.name == baseModuleNameOf s) = some m →
        m.clientAttr = some cv → m.processorAttr = some pv →
        resolveService mods s = Except.ok (cv, pv)) := by
  refine ⟨?_, ?_, ?_⟩
  · intro base hb
    subst hb
    unfold baseModuleNameOf
    rw [pyEndsWith_append base ".Client"]
    simp only [if_true]
    exact pySliceDropRight_append base ".Client"
  · intro h
    unfold baseModuleNameOf
    simp [h]
  · intro m cv pv hf hc hp
    unfold resolveService
    simp only [hf, hc, hp]

/-- C8 witness: Echo.Client resolves to module Echo, and both Client and
Processor load from it. -/
theorem c8_witness :
    baseModuleNameOf "Echo.Client" = "Echo" ∧
    resolveService echoServiceMods "Echo.Client" = Except.ok (echoClientAttr, echoProcessorAttr) := by
  constructor
  · exact (c8_client_suffix_strip echoServiceMods "Echo.Client").1 "Echo" (by decide)
  · exact (c8_client_suffix_strip echoServiceMods "Echo.Client").2.2 echoServiceModule
      echoClientAttr echoProcessorAttr rfl rfl rfl

/-- C9: building a delegate requires a docstring: for a method with a string
docstring the generated delegate's docstring is proxy for + name + doc, and
one docstring-less method makes make_proxy raise instead of producing a
proxy. -/
theorem c9_docstring_requirement (env : List PyModule) (client ifaceV : PyValue)
    (x : String) (m : BoundMethod) (sp : ThriftSpec)
    (h1 : get_interface client = Except.ok ifaceV)
    (hx : x ∈ nonMagicNames ifaceV)
    (hs : lookupSchema env (PyValue.moduleOf ifaceV) x = Except.ok sp)
    (hm : getattrMethod client x = Except.ok m) :
    (∀ d, m.doc = some d →
       build_one env client (PyValue.moduleOf ifaceV) x =
         Except.ok (x, ⟨"proxy for " ++ m.name ++ d, wrapperRun m sp⟩)) ∧
    (m.doc = Option.none → isOkE (make_proxy env client) = false) := by
  constructor
  · intro d hd
    unfold build_one
    simp only [hs, hm]
    unfold proxy_wrapper
    simp only [hd]
  · intro hd
    have hb : build_one env client (PyValue.moduleOf ifaceV) x =
        Except.error PyErr.typeError := by
      unfold build_one
      simp only [hs, hm]
      unfold proxy_wrapper
      simp only [hd]
    exact make_proxy_fails_of_build_one_error env client ifaceV x PyErr.typeError h1 hx hb

/-- C9 witness: the documented echo method yields a delegate whose docstring
is the concatenation, and the docstring-less client makes make_proxy fail. -/
theorem c9_witness :
    build_one echoEnv echoClientVal "Echo" "echo" =
      Except.ok ("echo", ⟨"proxy for " ++ echoBound.name ++ echoDoc, wrapperRun echoBound echoTS⟩) ∧
    isOkE (make_proxy echoEnv nodocClientVal) = false := by
  constructor
  · exact (c9_docstring_requirement echoEnv echoClientVal (PyValue.cls echoIfaceClass) "echo"
      echoBound echoTS rfl (by decide) rfl rfl).1 echoDoc rfl
  · exact (c9_docstring_requirement echoEnv nodocClientVal (PyValue.cls echoIfaceClass) "echo"
      nodocBound echoTS rfl (by decide) rfl rfl).2 rfl

/-- C10: get_interface asserts the resolved class object has no magic class
attribute before scanning bases, so any new-style resolved class raises
AssertionError, and a classic resolved class named Iface returns the original
argument unchanged, whatever its bases. -/
theorem c10_get_interface_classic_only (v : PyValue) :
    ((resolveClassObj v).newStyle = true →
       get_interface v = Except.error PyErr.assertionError) ∧
    ((resolveClassObj v).newStyle = false → (resolveClassObj v).name = "Iface" →
       get_interface v = Except.ok v) := by
  constructor
  · intro h
    unfold get_interface
    simp [h]
  · intro h1 h2
    unfold get_interface
    simp [h1, h2]

/-- C10 witness: an instance of a new-style class is rejected with
AssertionError; a classic class named Iface is returned unchanged. -/
theorem c10_witness :
    get_interface (PyValue.inst newStyleClient) = Except.error PyErr.assertionError ∧
    get_interface (PyValue.cls classicIface) = Except.ok (PyValue.cls classicIface) :=
  ⟨(c10_get_interface_classic_only (PyValue.inst newStyleClient)).1 rfl,
   (c10_get_interface_classic_only (PyValue.cls classicIface)).2 rfl rfl⟩
